import Mathlib

/-!
Shallow embedding of the Odin intrusion-detection core (Rust) in Lean 4.

Source files embedded:
- src/src/models/event.rs          (LogEvent, AnomalyReport)
- src/src/detection/rate_limiter.rs (WindowEntry, LoginRateLimiter)
- src/src/detection/context.rs      (IdentityContext)
- src/src/detection/rule_geo_velocity.rs (GeoLocation, GeoVelocityTracker, haversine_distance)
- src/src/persistence/sqlite_store.rs and persistence/mod.rs (StateStore over SQLite)
- src/src/bin/isds_daemon.rs        (process_event rule composition)

Modelling conventions:
- Rust i64 timestamps are Int; usize counts are Nat; u8 severity is Nat.
- IpAddr is modelled by its canonical display string (address-keyed indexes in
  the source use the string form, and events carry already-parsed addresses).
- HashMap is a function String to Option value; updates are pointwise.
- f64 arithmetic on time ratios is modelled exactly over the rationals, and
  the transcendental haversine computation exactly over the reals; f64
  rounding is abstracted to exact arithmetic.  No claim below depends on a
  float rounding boundary.
- Store operations are modelled on their success path (a StoreState value is
  the database content; the Rust error branches depend on the environment).
- Strings produced by format! are modelled by concatenation with toString of
  the integer arguments; float renderings that appear only inside report
  descriptions are replaced by exact rational renderings (no claim inspects
  those description fragments).
-/

namespace Odin

/-- LogEvent (src/src/models/event.rs, lines 4-10); ip_address is the
canonical address string. -/
structure LogEvent where
  timestamp : Int
  user : String
  ip_address : String
  event_type : String
deriving DecidableEq

/-- AnomalyReport (src/src/models/event.rs, lines 12-21); severity is the u8
field as a natural number. -/
structure AnomalyReport where
  severity : Nat
  rule_name : String
  user : String
  detected_ip : String
  trusted_ip : String
  timestamp : Int
  description : String
deriving DecidableEq

/-- GeoLocation (src/src/detection/rule_geo_velocity.rs, lines 5-9); the f64
coordinates are modelled as rationals. -/
structure GeoLocation where
  latitude : ℚ
  longitude : ℚ
deriving DecidableEq

/-- Pointwise update of a functional map, the model of HashMap::insert. -/
def updateMap {α : Type} (m : String → Option α) (k : String) (v : α) :
    String → Option α :=
  fun x => if x = k then some v else m x

/-- Durable state content (src/src/persistence/sqlite_store.rs): the
user_last_ip table keyed by user, and the append-only login_attempts and
user_locations tables as row lists in insertion order.  A location row is
(user, timestamp, location, ip), mirroring the table columns. -/
structure StoreState where
  user_last_ip : String → Option (String × Int)
  attempts : List (String × String × Int)
  user_locations : List (String × Int × GeoLocation × String)

/-- StateStore::get_user_last_ip (sqlite_store.rs, lines 58-78): row lookup
by user. -/
def StoreState.get_user_last_ip (s : StoreState) (user : String) :
    Option (String × Int) :=
  s.user_last_ip user

/-- StateStore::set_user_last_ip (sqlite_store.rs, lines 80-92): INSERT OR
REPLACE keyed by user. -/
def StoreState.set_user_last_ip (s : StoreState) (user ip : String)
    (timestamp : Int) : StoreState :=
  { s with user_last_ip := updateMap s.user_last_ip user (ip, timestamp) }

/-- StateStore::add_login_attempt (sqlite_store.rs, lines 140-152): append a
row to login_attempts. -/
def StoreState.add_login_attempt (s : StoreState) (user ip : String)
    (timestamp : Int) : StoreState :=
  { s with attempts := s.attempts ++ [(user, ip, timestamp)] }

/-- StateStore::get_user_attempts_in_window (sqlite_store.rs, lines 154-171):
SELECT timestamp FROM login_attempts WHERE user = ? AND timestamp >= ?.
The result order (ORDER BY DESC) is irrelevant to every caller, which only
takes the length. -/
def StoreState.get_user_attempts_in_window (s : StoreState) (user : String)
    (window_start : Int) : List Int :=
  (s.attempts.filter (fun a => a.1 = user && window_start ≤ a.2.2)).map
    (fun a => a.2.2)

/-- StateStore::get_ip_attempts_in_window (sqlite_store.rs, lines 173-190):
SELECT timestamp FROM login_attempts WHERE ip = ? AND timestamp >= ?. -/
def StoreState.get_ip_attempts_in_window (s : StoreState) (ip : String)
    (window_start : Int) : List Int :=
  (s.attempts.filter (fun a => a.2.1 = ip && window_start ≤ a.2.2)).map
    (fun a => a.2.2)

/-- StateStore::add_user_location (sqlite_store.rs, lines 118-138): append a
row to the user_locations table. -/
def StoreState.add_user_location (s : StoreState) (user : String)
    (timestamp : Int) (location : GeoLocation) (ip : String) : StoreState :=
  { s with user_locations :=
      s.user_locations ++ [(user, timestamp, location, ip)] }

/-- Step of the newest-by-timestamp row selection of get_user_last_location:
keep the row with the strictly larger timestamp, preferring the earlier row
on ties.  SQLite leaves the order of rows with equal timestamps unspecified;
the parity theorem below only uses inputs whose per-user timestamps are
strictly increasing, where ties never arise. -/
def locBest (acc : Option (Int × GeoLocation))
    (r : String × Int × GeoLocation × String) : Option (Int × GeoLocation) :=
  match acc with
  | none => some (r.2.1, r.2.2.1)
  | some (t, _) => if t < r.2.1 then some (r.2.1, r.2.2.1) else acc

/-- StateStore::get_user_last_location (sqlite_store.rs, lines 94-116):
SELECT timestamp, latitude, longitude FROM user_locations WHERE user = ?
ORDER BY timestamp DESC LIMIT 1 — the newest row by timestamp among the
rows of the user. -/
def StoreState.get_user_last_location (s : StoreState) (user : String) :
    Option (Int × GeoLocation) :=
  (s.user_locations.filter (fun r => r.1 = user)).foldl locBest none

/-- StateStore::get_user_attempt_count (persistence/mod.rs, lines 102-108):
default trait method, length of get_user_attempts_in_window. -/
def StoreState.get_user_attempt_count (s : StoreState) (user : String)
    (window_start : Int) : Nat :=
  (s.get_user_attempts_in_window user window_start).length

/-- StateStore::get_ip_attempt_count (persistence/mod.rs, lines 110-116):
default trait method, length of get_ip_attempts_in_window. -/
def StoreState.get_ip_attempt_count (s : StoreState) (ip : String)
    (window_start : Int) : Nat :=
  (s.get_ip_attempts_in_window ip window_start).length

/-! ## Rate limiter (src/src/detection/rate_limiter.rs) -/

/-- WindowEntry (rate_limiter.rs, lines 12-15): a vector of timestamps. -/
structure WindowEntry where
  timestamps : List Int
deriving DecidableEq

/-- WindowEntry::new (rate_limiter.rs, lines 18-20). -/
def WindowEntry.new : WindowEntry := ⟨[]⟩

/-- WindowEntry::add_and_prune (rate_limiter.rs, lines 23-27): retain
timestamps strictly above timestamp - window_seconds, then push the new
timestamp. -/
def WindowEntry.add_and_prune (e : WindowEntry) (timestamp window_seconds : Int) :
    WindowEntry :=
  let cutoff := timestamp - window_seconds
  ⟨(e.timestamps.filter (fun t => cutoff < t)) ++ [timestamp]⟩

/-- WindowEntry::count (rate_limiter.rs, lines 29-31): raw length, with no
window filtering. -/
def WindowEntry.count (e : WindowEntry) : Nat :=
  e.timestamps.length

/-- LoginRateLimiter (rate_limiter.rs, lines 35-47). -/
structure LoginRateLimiter where
  per_user_attempts : String → Option WindowEntry
  per_ip_attempts : String → Option WindowEntry
  window_seconds : Int
  max_user_attempts : Nat
  max_ip_attempts : Nat
  store : Option StoreState

/-- LoginRateLimiter::with_config (rate_limiter.rs, lines 63-76). -/
def LoginRateLimiter.with_config (window_seconds : Int)
    (max_user_attempts max_ip_attempts : Nat) : LoginRateLimiter :=
  { per_user_attempts := fun _ => none
    per_ip_attempts := fun _ => none
    window_seconds := window_seconds
    max_user_attempts := max_user_attempts
    max_ip_attempts := max_ip_attempts
    store := none }

/-- LoginRateLimiter::with_persistence (rate_limiter.rs, lines 79-93). -/
def LoginRateLimiter.with_persistence (window_seconds : Int)
    (max_user_attempts max_ip_attempts : Nat) (store : StoreState) :
    LoginRateLimiter :=
  { per_user_attempts := fun _ => none
    per_ip_attempts := fun _ => none
    window_seconds := window_seconds
    max_user_attempts := max_user_attempts
    max_ip_attempts := max_ip_attempts
    store := some store }

/-- LoginRateLimiter::get_user_attempt_count_internal (rate_limiter.rs,
lines 170-185): the store count when a store is present, otherwise the raw
in-memory entry length. -/
def LoginRateLimiter.get_user_attempt_count_internal (rl : LoginRateLimiter)
    (user : String) (current_timestamp : Int) : Nat :=
  let window_start := current_timestamp - rl.window_seconds
  match rl.store with
  | some s => s.get_user_attempt_count user window_start
  | none =>
    match rl.per_user_attempts user with
    | some e => e.count
    | none => 0

/-- LoginRateLimiter::get_ip_attempt_count_internal (rate_limiter.rs,
lines 188-201). -/
def LoginRateLimiter.get_ip_attempt_count_internal (rl : LoginRateLimiter)
    (ip : String) (window_start : Int) : Nat :=
  match rl.store with
  | some s => s.get_ip_attempt_count ip window_start
  | none =>
    match rl.per_ip_attempts ip with
    | some e => e.count
    | none => 0

/-- LoginRateLimiter::get_user_attempt_count (rate_limiter.rs, lines
204-209): the public in-memory count. -/
def LoginRateLimiter.get_user_attempt_count (rl : LoginRateLimiter)
    (user : String) : Nat :=
  match rl.per_user_attempts user with
  | some e => e.count
  | none => 0

/-- LoginRateLimiter::calculate_severity (rate_limiter.rs, lines 219-230):
severity band from the ratio actual / threshold (f64 division modelled as
exact rational division). -/
def LoginRateLimiter.calculate_severity (actual threshold : Nat) : Nat :=
  let r : ℚ := (actual : ℚ) / (threshold : ℚ)
  if 5 < r then 10
  else if 3 < r then 9
  else if 2 < r then 8
  else 7

/-- Description string of the user rate report (rate_limiter.rs, lines
125-132); the backslash line continuation in the Rust literal collapses to
nothing. -/
def userRateDescription (user : String) (count : Nat) (window : Int)
    (threshold : Nat) : String :=
  "User \x27" ++ user ++ "\x27 has " ++ toString count ++
    " login attempts in the last " ++ toString window ++
    " seconds (threshold: " ++ toString threshold ++
    "). Possible credential stuffing or brute force attack."

/-- Description string of the IP rate report (rate_limiter.rs, lines
155-162). -/
def ipRateDescription (ip : String) (count : Nat) (window : Int)
    (threshold : Nat) : String :=
  "IP " ++ ip ++ " has " ++ toString count ++
    " login attempts in the last " ++ toString window ++
    " seconds (threshold: " ++ toString threshold ++
    "). Possible distributed attack or compromised host."

/-- LoginRateLimiter::check_rate_limit (rate_limiter.rs, lines 96-167):
persist the attempt first (when a store is present), read the counts (store
first, in-memory fallback), update the in-memory windows, and emit the user
report then the IP report when the respective count exceeds its threshold. -/
def LoginRateLimiter.check_rate_limit (rl : LoginRateLimiter) (event : LogEvent) :
    List AnomalyReport × LoginRateLimiter :=
  let window_start := event.timestamp - rl.window_seconds
  -- Record the login attempt to persistence first
  let store1 := rl.store.map
    (fun s => s.add_login_attempt event.user event.ip_address event.timestamp)
  let rl := { rl with store := store1 }
  -- Get user attempt count
  let user_count := rl.get_user_attempt_count_internal event.user event.timestamp
  -- Track per-user attempts in memory
  let user_entry :=
    (rl.per_user_attempts event.user).getD WindowEntry.new
  let user_entry1 := user_entry.add_and_prune event.timestamp rl.window_seconds
  let rl :=
    { rl with per_user_attempts :=
        updateMap rl.per_user_attempts event.user user_entry1 }
  let userReports : List AnomalyReport :=
    if rl.max_user_attempts < user_count then
      [{ severity := LoginRateLimiter.calculate_severity user_count rl.max_user_attempts
         rule_name := "User Rate Limit Exceeded"
         user := event.user
         detected_ip := event.ip_address
         trusted_ip := ""
         timestamp := event.timestamp
         description :=
           userRateDescription event.user user_count rl.window_seconds
             rl.max_user_attempts }]
    else []
  -- Get IP attempt count
  let ip_str := event.ip_address
  let ip_count := rl.get_ip_attempt_count_internal ip_str window_start
  -- Track per-IP attempts in memory
  let ip_entry := (rl.per_ip_attempts ip_str).getD WindowEntry.new
  let ip_entry1 := ip_entry.add_and_prune event.timestamp rl.window_seconds
  let rl :=
    { rl with per_ip_attempts :=
        updateMap rl.per_ip_attempts ip_str ip_entry1 }
  let ipReports : List AnomalyReport :=
    if rl.max_ip_attempts < ip_count then
      [{ severity := LoginRateLimiter.calculate_severity ip_count rl.max_ip_attempts
         rule_name := "IP Rate Limit Exceeded"
         user := event.user
         detected_ip := ip_str
         trusted_ip := ""
         timestamp := event.timestamp
         description :=
           ipRateDescription ip_str ip_count rl.window_seconds
             rl.max_ip_attempts }]
    else []
  (userReports ++ ipReports, rl)

/-- LoginRateLimiter::prune_stale (rate_limiter.rs, lines 239-251): retain,
in every entry, only timestamps strictly above current_timestamp - window;
entries whose vectors become empty are removed. -/
def LoginRateLimiter.prune_stale (rl : LoginRateLimiter)
    (current_timestamp : Int) : LoginRateLimiter :=
  let cutoff := current_timestamp - rl.window_seconds
  let pruneEntry : Option WindowEntry → Option WindowEntry := fun o =>
    match o with
    | none => none
    | some e =>
      let kept := e.timestamps.filter (fun t => cutoff < t)
      if kept.isEmpty then none else some ⟨kept⟩
  { rl with
    per_user_attempts := fun k => pruneEntry (rl.per_user_attempts k)
    per_ip_attempts := fun k => pruneEntry (rl.per_ip_attempts k) }

/-- Sequential processing of events through check_rate_limit, returning the
per-call report lists in order together with the final state. -/
def LoginRateLimiter.run (rl : LoginRateLimiter) (evs : List LogEvent) :
    List (List AnomalyReport) × LoginRateLimiter :=
  match evs with
  | [] => ([], rl)
  | e :: rest =>
    let r := rl.check_rate_limit e
    let rest_out := LoginRateLimiter.run r.2 rest
    (r.1 :: rest_out.1, rest_out.2)

/-! ## IP-switch rule (src/src/detection/context.rs) -/

/-- IdentityContext (context.rs, lines 13-18): in-memory cache of user to
last known IP, plus the optional persistence backend. -/
structure IdentityContext where
  last_known_ip : String → Option String
  store : Option StoreState

/-- IdentityContext::new (context.rs, lines 22-27). -/
def IdentityContext.new : IdentityContext :=
  { last_known_ip := fun _ => none, store := none }

/-- IdentityContext::with_persistence (context.rs, lines 35-40). -/
def IdentityContext.with_persistence (store : StoreState) : IdentityContext :=
  { last_known_ip := fun _ => none, store := some store }

/-- Description string of the IP switch report (context.rs, lines 84-87). -/
def ipSwitchDescription (user trusted detected : String) : String :=
  "User \x27" ++ user ++ "\x27 switched from trusted IP " ++ trusted ++
    " to new IP " ++ detected ++ "."

/-- IdentityContext::check_for_ip_switch (context.rs, lines 46-100): resolve
the trusted IP from the cache, falling back to the store and populating the
cache on a hit; report when the trusted IP differs from the event address;
always update the cache (and the store) to the event address afterwards. -/
def IdentityContext.check_for_ip_switch (ctx : IdentityContext)
    (event : LogEvent) : Option AnomalyReport × IdentityContext :=
  let cached_ip := ctx.last_known_ip event.user
  let resolved : Option String × (String → Option String) :=
    match cached_ip with
    | some ip => (some ip, ctx.last_known_ip)
    | none =>
      match ctx.store with
      | some s =>
        match s.get_user_last_ip event.user with
        | some (ip, _) =>
          -- Populate cache from persistence
          (some ip, updateMap ctx.last_known_ip event.user ip)
        | none => (none, ctx.last_known_ip)
      | none => (none, ctx.last_known_ip)
  let trusted_ip := resolved.1
  let report : Option AnomalyReport :=
    match trusted_ip with
    | none => none
    | some ip =>
      if ip = event.ip_address then none
      else
        some { severity := 8
               rule_name := "Sudden IP Switch"
               user := event.user
               detected_ip := event.ip_address
               trusted_ip := ip
               timestamp := event.timestamp
               description :=
                 ipSwitchDescription event.user ip event.ip_address }
  -- Update both cache and persistence
  let cache2 := updateMap resolved.2 event.user event.ip_address
  let store2 := ctx.store.map
    (fun s => s.set_user_last_ip event.user event.ip_address event.timestamp)
  (report, { last_known_ip := cache2, store := store2 })

/-- Sequential processing of events through check_for_ip_switch, keeping the
final state. -/
def IdentityContext.run (ctx : IdentityContext) (evs : List LogEvent) :
    IdentityContext :=
  match evs with
  | [] => ctx
  | e :: rest => IdentityContext.run (ctx.check_for_ip_switch e).2 rest

/-! ## Geo-velocity rule (src/src/detection/rule_geo_velocity.rs) -/

/-- haversine_distance (rule_geo_velocity.rs, lines 152-165): great-circle
distance on a sphere of radius 6371 km, modelled exactly over the reals. -/
noncomputable def haversine_distance (loc1 loc2 : GeoLocation) : ℝ :=
  let lat1_rad := (loc1.latitude : ℝ) * Real.pi / 180
  let lat2_rad := (loc2.latitude : ℝ) * Real.pi / 180
  let delta_lat := ((loc2.latitude - loc1.latitude : ℚ) : ℝ) * Real.pi / 180
  let delta_lon := ((loc2.longitude - loc1.longitude : ℚ) : ℝ) * Real.pi / 180
  let a := (Real.sin (delta_lat / 2)) ^ 2 +
    Real.cos lat1_rad * Real.cos lat2_rad * (Real.sin (delta_lon / 2)) ^ 2
  let c := 2 * Real.arcsin (Real.sqrt a)
  6371 * c

/-- GeoVelocityTracker (rule_geo_velocity.rs, lines 12-17): user to
(last timestamp, last location), plus the maximum plausible speed. -/
structure GeoVelocityTracker where
  user_locations : String → Option (Int × GeoLocation)
  max_velocity_kmh : ℚ

/-- Insert of (timestamp, location) for the event user (rule_geo_velocity.rs,
lines 87-88). -/
def GeoVelocityTracker.insertLoc (tr : GeoVelocityTracker) (event : LogEvent)
    (current_location : GeoLocation) : GeoVelocityTracker :=
  { tr with user_locations :=
      updateMap tr.user_locations event.user (event.timestamp, current_location) }

/-- GeoVelocityTracker::with_max_velocity (rule_geo_velocity.rs, lines
27-32). -/
def GeoVelocityTracker.with_max_velocity (max_velocity_kmh : ℚ) :
    GeoVelocityTracker :=
  { user_locations := fun _ => none, max_velocity_kmh := max_velocity_kmh }

/-- GeoVelocityTracker::calculate_severity (rule_geo_velocity.rs, lines
120-131): severity band from the velocity ratio. -/
noncomputable def GeoVelocityTracker.calculate_severity
    (actual_velocity max_velocity : ℝ) : Nat :=
  let r := actual_velocity / max_velocity
  if 10 < r then 10
  else if 5 < r then 9
  else if 2 < r then 8
  else 7

/-- Description skeleton of the simultaneous login report
(rule_geo_velocity.rs, lines 107-116); the f64 renderings of the distance and
coordinates are abstracted to exact rational renderings of the coordinates
(no claim inspects this text). -/
def simultaneousDescription (user : String) (l1 l2 : GeoLocation) : String :=
  "User \x27" ++ user ++
    "\x27 logged in from two locations km apart within seconds. Locations: (" ++
    toString l1.latitude ++ ", " ++ toString l1.longitude ++ ") and (" ++
    toString l2.latitude ++ ", " ++ toString l2.longitude ++
    "). Likely credential compromise."

/-- Description skeleton of the impossible travel report
(rule_geo_velocity.rs, lines 65-78), with the same abstraction of float
renderings. -/
def impossibleTravelDescription (user : String) (l1 l2 : GeoLocation) : String :=
  "User \x27" ++ user ++ "\x27 traveled km in hours. Previous location: (" ++
    toString l1.latitude ++ ", " ++ toString l1.longitude ++
    "), Current location: (" ++ toString l2.latitude ++ ", " ++
    toString l2.longitude ++ ")."

/-- GeoVelocityTracker::create_simultaneous_login_report
(rule_geo_velocity.rs, lines 93-118): severity 10 report; the haversine
distance it computes is used only inside the description text. -/
def create_simultaneous_login_report (event : LogEvent)
    (last_location current_location : GeoLocation) : AnomalyReport :=
  { severity := 10
    rule_name := "Simultaneous Multi-Location Login"
    user := event.user
    detected_ip := event.ip_address
    trusted_ip := ""
    timestamp := event.timestamp
    description :=
      simultaneousDescription event.user last_location current_location }

/-- GeoVelocityTracker::check_impossible_travel (rule_geo_velocity.rs, lines
35-91): with a prior location, a time delta below 0.001 h returns the
simultaneous report through an early return that skips the index update;
otherwise the velocity is compared against the maximum and the index is
updated with the current observation. -/
noncomputable def GeoVelocityTracker.check_impossible_travel
    (tr : GeoVelocityTracker) (event : LogEvent)
    (current_location : GeoLocation) :
    Option AnomalyReport × GeoVelocityTracker :=
  match tr.user_locations event.user with
  | none =>
    (none, tr.insertLoc event current_location)
  | some (last_timestamp, last_location) =>
    let time_diff_hours : ℚ :=
      ((event.timestamp - last_timestamp : Int) : ℚ) / 3600
    -- Avoid division by zero for near-simultaneous logins
    if time_diff_hours < 1 / 1000 then
      -- Rust early return: the index update at the end is skipped
      (some (create_simultaneous_login_report event last_location
          current_location), tr)
    else
      let distance_km := haversine_distance last_location current_location
      let velocity_kmh := distance_km / (time_diff_hours : ℝ)
      let result : Option AnomalyReport :=
        if (tr.max_velocity_kmh : ℝ) < velocity_kmh then
          some { severity :=
                   GeoVelocityTracker.calculate_severity velocity_kmh
                     (tr.max_velocity_kmh : ℝ)
                 rule_name := "Impossible Travel Velocity"
                 user := event.user
                 detected_ip := event.ip_address
                 trusted_ip := ""
                 timestamp := event.timestamp
                 description :=
                   impossibleTravelDescription event.user last_location
                     current_location }
        else none
      (result, tr.insertLoc event current_location)

/-- Modelled from the spec: GeoVelocityTracker::with_persistence is invoked
by src/src/bin/isds_daemon.rs (line 129) but absent from
src/src/detection/rule_geo_velocity.rs, so the persistent variant of the
geo-velocity tracker is modelled from spec section 4.D (step 1: fetch the
prior observation, falling through to the store on a cache miss per
invariant 3; update the index with the current observation at the end
regardless of outcome) and section 4.F (get_last_location / append_location
capabilities); the decision logic is that of the in-memory rule. -/
structure GeoVelocityTrackerP where
  user_locations : String → Option (Int × GeoLocation)
  max_velocity_kmh : ℚ
  store : StoreState

/-- Modelled from the spec: decision core of the geo-velocity rule on a
resolved prior observation, shared by the in-memory rule shape (spec section
4.D steps 2-6). -/
noncomputable def geoDecision (max_velocity_kmh : ℚ) (event : LogEvent)
    (current_location : GeoLocation) (prior : Option (Int × GeoLocation)) :
    Option AnomalyReport :=
  match prior with
  | none => none
  | some (last_timestamp, last_location) =>
    let time_diff_hours : ℚ :=
      ((event.timestamp - last_timestamp : Int) : ℚ) / 3600
    if time_diff_hours < 1 / 1000 then
      some (create_simultaneous_login_report event last_location
        current_location)
    else
      let distance_km := haversine_distance last_location current_location
      let velocity_kmh := distance_km / (time_diff_hours : ℝ)
      if (max_velocity_kmh : ℝ) < velocity_kmh then
        some { severity :=
                 GeoVelocityTracker.calculate_severity velocity_kmh
                   (max_velocity_kmh : ℝ)
               rule_name := "Impossible Travel Velocity"
               user := event.user
               detected_ip := event.ip_address
               trusted_ip := ""
               timestamp := event.timestamp
               description :=
                 impossibleTravelDescription event.user last_location
                   current_location }
      else none

/-- Modelled from the spec: persistent geo-velocity check (spec section 4.D
with invariant 3); a cache miss falls through to the store's
newest-by-timestamp read (get_user_last_location), and at the end the cache
is updated with the current observation and the observation is appended to
the store's location table (append_location, spec section 4.F; the table is
append-only per spec section 6). -/
noncomputable def GeoVelocityTrackerP.check_impossible_travel
    (tr : GeoVelocityTrackerP) (event : LogEvent)
    (current_location : GeoLocation) :
    Option AnomalyReport × GeoVelocityTrackerP :=
  let prior : Option (Int × GeoLocation) :=
    match tr.user_locations event.user with
    | some p => some p
    | none => tr.store.get_user_last_location event.user
  let result := geoDecision tr.max_velocity_kmh event current_location prior
  let cache2 :=
    updateMap tr.user_locations event.user (event.timestamp, current_location)
  let store2 := tr.store.add_user_location event.user event.timestamp
    current_location event.ip_address
  (result, { tr with user_locations := cache2, store := store2 })

/-- Sequential processing of located events through the persistent
geo-velocity check; an event with no location is skipped with no state
change (spec section 4.D edge cases). -/
noncomputable def GeoVelocityTrackerP.run (tr : GeoVelocityTrackerP)
    (evs : List (LogEvent × Option GeoLocation)) : GeoVelocityTrackerP :=
  match evs with
  | [] => tr
  | (e, some loc) :: rest =>
    GeoVelocityTrackerP.run (tr.check_impossible_travel e loc).2 rest
  | (_, none) :: rest => GeoVelocityTrackerP.run tr rest

/-! ## Event processing (src/src/bin/isds_daemon.rs, process_event) -/

/-- process_event (isds_daemon.rs, lines 281-356) with all three rules
enabled: IP switch first, then geo velocity when a location is available,
then rate limiting; the reports are collected in that order.  The rules read
disjoint store tables, so carrying the store inside each rule state is
observably identical to the shared Arc of the daemon. -/
noncomputable def processEvent (ctx : IdentityContext)
    (tr : GeoVelocityTracker) (rl : LoginRateLimiter) (event : LogEvent)
    (location : Option GeoLocation) :
    List AnomalyReport × IdentityContext × GeoVelocityTracker ×
      LoginRateLimiter :=
  let r1 := ctx.check_for_ip_switch event
  let r2 : Option AnomalyReport × GeoVelocityTracker :=
    match location with
    | some loc => tr.check_impossible_travel event loc
    | none => (none, tr)
  let r3 := rl.check_rate_limit event
  (r1.1.toList ++ r2.1.toList ++ r3.1, r1.2, r2.2, r3.2)

/-! ## JSON round trip (serde derive on AnomalyReport) -/

/-- Modelled from the spec: AnomalyReport derives serde Serialize and
Deserialize (src/src/models/event.rs, line 12), whose implementation lives in
the external serde crates; the spec (sections 6 and 8) fixes the encoded form
as a JSON object with the seven fields.  JSON values are modelled with
integer numbers, which cover the u8 and i64 fields. -/
inductive Json where
  | null : Json
  | bool : Bool → Json
  | num : Int → Json
  | str : String → Json
  | arr : List Json → Json
  | obj : List (String × Json) → Json

/-- Modelled from the spec: serde serialization of AnomalyReport as the JSON
object listing the seven fields in declaration order. -/
def encodeReport (r : AnomalyReport) : Json :=
  Json.obj
    [("severity", Json.num (r.severity : Int)),
     ("rule_name", Json.str r.rule_name),
     ("user", Json.str r.user),
     ("detected_ip", Json.str r.detected_ip),
     ("trusted_ip", Json.str r.trusted_ip),
     ("timestamp", Json.num r.timestamp),
     ("description", Json.str r.description)]

/-- First binding of a key in a JSON object, the model of field lookup during
deserialization. -/
def jsonLookup (fields : List (String × Json)) (k : String) : Option Json :=
  match fields with
  | [] => none
  | (k1, v) :: rest => if k1 = k then some v else jsonLookup rest k

/-- Decode a JSON value as a string field. -/
def Json.asStr : Json → Option String
  | .str s => some s
  | _ => none

/-- Decode a JSON value as a u8 field (serde rejects numbers outside
0..=255). -/
def Json.asU8 : Json → Option Nat
  | .num n => if 0 ≤ n ∧ n ≤ 255 then some n.toNat else none
  | _ => none

/-- Decode a JSON value as an i64 field (serde rejects numbers outside the
i64 range). -/
def Json.asI64 : Json → Option Int
  | .num n => if -(2 ^ 63) ≤ n ∧ n < 2 ^ 63 then some n else none
  | _ => none

/-- Modelled from the spec: serde deserialization of AnomalyReport, reading
the seven required fields from the object. -/
def decodeReport (j : Json) : Option AnomalyReport :=
  match j with
  | .obj fields => do
    let severity ← (← jsonLookup fields "severity").asU8
    let rule_name ← (← jsonLookup fields "rule_name").asStr
    let user ← (← jsonLookup fields "user").asStr
    let detected_ip ← (← jsonLookup fields "detected_ip").asStr
    let trusted_ip ← (← jsonLookup fields "trusted_ip").asStr
    let timestamp ← (← jsonLookup fields "timestamp").asI64
    let description ← (← jsonLookup fields "description").asStr
    pure { severity := severity, rule_name := rule_name, user := user,
           detected_ip := detected_ip, trusted_ip := trusted_ip,
           timestamp := timestamp, description := description }
  | _ => none

/-! ## Concrete inputs used by the evaluation theorems -/

/-- Test event builder, as in the repository test helpers. -/
def mkEvent (user : String) (timestamp : Int) (ip : String) : LogEvent :=
  { timestamp := timestamp, user := user, ip_address := ip,
    event_type := "LOGIN" }

/-- Five events for one user in one window (spec section 8, scenario 4). -/
def c1Events : List LogEvent :=
  [mkEvent "attacker" 1700000000 "1.1.1.1",
   mkEvent "attacker" 1700000001 "1.1.1.1",
   mkEvent "attacker" 1700000002 "1.1.1.1",
   mkEvent "attacker" 1700000003 "1.1.1.1",
   mkEvent "attacker" 1700000004 "1.1.1.1"]

/-- C1: evaluation of the code at the claimed input.  With window 300,
max_user_attempts 3 and no store, the five events for one user yield report
counts [0, 0, 0, 0, 1]: the fourth call returns no report, because
check_rate_limit compares the pre-increment in-memory count (3) against the
threshold with a strict inequality, while the claim (and the repository's
own test_user_rate_exceeded, rate_limiter.rs lines 287-301) require the
fourth and fifth calls to each return a "User Rate Limit Exceeded" report.
Only the fifth call reports. -/
theorem c1_rate_threshold_eval :
    (((LoginRateLimiter.with_config 300 3 100).run c1Events).1.map
        List.length = [0, 0, 0, 0, 1]) ∧
    ((((LoginRateLimiter.with_config 300 3 100).run c1Events).1.getD 4
        []).map AnomalyReport.rule_name = ["User Rate Limit Exceeded"]) := by
  constructor
  · decide
  · decide

/-- Three events inside one window of 60 seconds (spec section 8,
scenario 6, first part). -/
def c2Events : List LogEvent :=
  [mkEvent "user1" 1700000000 "1.1.1.1",
   mkEvent "user1" 1700000001 "1.1.1.1",
   mkEvent "user1" 1700000002 "1.1.1.1"]

/-- Rate limiter state after the three C2 events (window 60,
max_user_attempts 3, no store). -/
def c2State : LoginRateLimiter :=
  ((LoginRateLimiter.with_config 60 3 100).run c2Events).2

/-- The post-gap event of the C2 scenario, 120 seconds after the first. -/
def c2LastEvent : LogEvent := mkEvent "user1" 1700000120 "1.1.1.1"

/-- C2: evaluation of the code at the claimed input.  At the event 120
seconds later (window 60), the pre-increment count that check_rate_limit
reads is 3, not 0 as the claim states: the in-memory fallback
(WindowEntry::count) returns the raw entry length without evicting the three
stale timestamps, because eviction happens only in add_and_prune after the
count was taken.  The remaining parts of the claim hold: no report is
emitted (3 is not greater than 3) and exactly one timestamp is stored for
the user afterwards. -/
theorem c2_window_eviction_eval :
    (c2State.get_user_attempt_count_internal "user1" 1700000120 = 3) ∧
    ((c2State.check_rate_limit c2LastEvent).1 = []) ∧
    ((c2State.check_rate_limit c2LastEvent).2.get_user_attempt_count "user1"
      = 1) := by
  refine ⟨by decide, by decide, by decide⟩

/-! ## C7: window boundary semantics -/

/-- Store holding one login attempt at timestamp 40, exactly at the lower
window boundary for an observation at time 100 with window 60. -/
def c7Store : StoreState :=
  { user_last_ip := fun _ => none
    attempts := [("u", "1.1.1.1", 40)]
    user_locations := [] }

/-- C7 counterexample: the claim says a stored timestamp equal to t - W is
excluded from the attempt count, so the count below would be 0; the
store-backed count (SQL: timestamp >= window_start) includes the boundary
timestamp and returns 1. -/
theorem c7_boundary_counterexample :
    ((LoginRateLimiter.with_persistence 60 3 100
        c7Store).get_user_attempt_count_internal "u" 100 = 1) ∧
    ¬ ((LoginRateLimiter.with_persistence 60 3 100
        c7Store).get_user_attempt_count_internal "u" 100 = 0) := by
  refine ⟨by decide, by decide⟩

/-- C7 (amended): window semantics as implemented.  (1) The store-backed
attempt count uses a closed lower bound: an attempt recorded exactly at
t - W is counted.  (2) Without a store, the in-memory fallback count is
independent of the observation time (no window filtering happens when
counting).  (3, 4) After check_rate_limit, the in-memory entries for the
event's user key and address key hold only timestamps strictly above
event.timestamp - W, provided the window is positive.  (5, 6) After
prune_stale(now), every in-memory entry of either map holds only timestamps
strictly above now - W. -/
theorem c7_window_semantics :
    (∀ (s : StoreState) (u ip : String) (t W : Int),
        (s.add_login_attempt u ip (t - W)).get_user_attempt_count u (t - W)
          = s.get_user_attempt_count u (t - W) + 1) ∧
    (∀ (rl : LoginRateLimiter) (u : String) (t t' : Int), rl.store = none →
        rl.get_user_attempt_count_internal u t
          = rl.get_user_attempt_count_internal u t') ∧
    (∀ (rl : LoginRateLimiter) (event : LogEvent), 0 < rl.window_seconds →
      ∀ e, (rl.check_rate_limit event).2.per_user_attempts event.user = some e →
      ∀ t' ∈ e.timestamps, event.timestamp - rl.window_seconds < t') ∧
    (∀ (rl : LoginRateLimiter) (event : LogEvent), 0 < rl.window_seconds →
      ∀ e, (rl.check_rate_limit event).2.per_ip_attempts event.ip_address = some e →
      ∀ t' ∈ e.timestamps, event.timestamp - rl.window_seconds < t') ∧
    (∀ (rl : LoginRateLimiter) (now : Int) (k : String),
      ∀ e, (rl.prune_stale now).per_user_attempts k = some e →
      ∀ t' ∈ e.timestamps, now - rl.window_seconds < t') ∧
    (∀ (rl : LoginRateLimiter) (now : Int) (k : String),
      ∀ e, (rl.prune_stale now).per_ip_attempts k = some e →
      ∀ t' ∈ e.timestamps, now - rl.window_seconds < t') := by
  refine ⟨?_, ?_, ?_, ?_, ?_, ?_⟩
  · intro s u ip t W
    simp [StoreState.add_login_attempt, StoreState.get_user_attempt_count,
      StoreState.get_user_attempts_in_window, List.filter_append]
  · intro rl u t t' h
    simp [LoginRateLimiter.get_user_attempt_count_internal, h]
  · intro rl event hW e he t' ht
    simp [LoginRateLimiter.check_rate_limit, updateMap] at he
    subst he
    simp [WindowEntry.add_and_prune, List.mem_append, List.mem_filter] at ht
    rcases ht with ⟨_, h2⟩ | rfl
    · exact h2
    · omega
  · intro rl event hW e he t' ht
    simp [LoginRateLimiter.check_rate_limit, updateMap] at he
    subst he
    simp [WindowEntry.add_and_prune, List.mem_append, List.mem_filter] at ht
    rcases ht with ⟨_, h2⟩ | rfl
    · exact h2
    · omega
  · intro rl now k e he t' ht
    simp only [LoginRateLimiter.prune_stale] at he
    cases h0 : rl.per_user_attempts k with
    | none => simp [h0] at he
    | some e0 =>
      simp only [h0] at he
      by_cases hk : (e0.timestamps.filter
          (fun t => decide (now - rl.window_seconds < t))).isEmpty
      · simp [hk] at he
      · simp only [hk, if_neg, Bool.false_eq_true, not_false_iff] at he
        cases he
        simp only [List.mem_filter] at ht
        simpa using ht.2
  · intro rl now k e he t' ht
    simp only [LoginRateLimiter.prune_stale] at he
    cases h0 : rl.per_ip_attempts k with
    | none => simp [h0] at he
    | some e0 =>
      simp only [h0] at he
      by_cases hk : (e0.timestamps.filter
          (fun t => decide (now - rl.window_seconds < t))).isEmpty
      · simp [hk] at he
      · simp only [hk, if_neg, Bool.false_eq_true, not_false_iff] at he
        cases he
        simp only [List.mem_filter] at ht
        simpa using ht.2

/-- C7 witness: the post-check invariant at a concrete input; the single
stored timestamp 1000 after one event lies strictly inside the window. -/
theorem c7_window_semantics_witness :
    (mkEvent "w" 1000 "9.9.9.9").timestamp
      - (LoginRateLimiter.with_config 60 3 100).window_seconds < 1000 :=
  c7_window_semantics.2.2.1 (LoginRateLimiter.with_config 60 3 100)
    (mkEvent "w" 1000 "9.9.9.9") (by decide) ⟨[1000]⟩ (by decide) 1000
    (by decide)

/-! ## C4: IP-switch rule contract -/

/-- Resolution of the prior recorded address of a user: the cache entry when
present, otherwise the store row (context.rs, lines 47-71, success path). -/
def IdentityContext.priorIp (ctx : IdentityContext) (user : String) :
    Option String :=
  match ctx.last_known_ip user with
  | some ip => some ip
  | none =>
    match ctx.store with
    | some s => (s.get_user_last_ip user).map Prod.fst
    | none => none

/-- C4: IP-switch rule contract.  With no prior recorded address the rule
returns no report; with a prior equal to the event address it returns no
report; with a differing prior it returns the "Sudden IP Switch" report of
severity 8 carrying the prior as trusted_ip and the event address as
detected_ip; and in all cases the index afterwards maps the user to the
event's address. -/
theorem c4_ip_switch_contract (ctx : IdentityContext) (event : LogEvent) :
    (ctx.priorIp event.user = none →
      (ctx.check_for_ip_switch event).1 = none) ∧
    (ctx.priorIp event.user = some event.ip_address →
      (ctx.check_for_ip_switch event).1 = none) ∧
    (∀ ip, ctx.priorIp event.user = some ip → ip ≠ event.ip_address →
      (ctx.check_for_ip_switch event).1 =
        some { severity := 8
               rule_name := "Sudden IP Switch"
               user := event.user
               detected_ip := event.ip_address
               trusted_ip := ip
               timestamp := event.timestamp
               description :=
                 ipSwitchDescription event.user ip event.ip_address }) ∧
    ((ctx.check_for_ip_switch event).2.last_known_ip event.user
      = some event.ip_address) := by
  cases hc : ctx.last_known_ip event.user with
  | some ip0 =>
    refine ⟨?_, ?_, ?_, ?_⟩
    · intro h
      simp [IdentityContext.priorIp, hc] at h
    · intro h
      simp only [IdentityContext.priorIp, hc] at h
      cases h
      simp [IdentityContext.check_for_ip_switch, hc]
    · intro ip h hne
      simp only [IdentityContext.priorIp, hc] at h
      cases h
      simp [IdentityContext.check_for_ip_switch, hc, hne]
    · simp [IdentityContext.check_for_ip_switch, hc, updateMap]
  | none =>
    cases hs : ctx.store with
    | none =>
      refine ⟨?_, ?_, ?_, ?_⟩
      · intro _
        simp [IdentityContext.check_for_ip_switch, hc, hs]
      · intro h
        simp [IdentityContext.priorIp, hc, hs] at h
      · intro ip h
        simp [IdentityContext.priorIp, hc, hs] at h
      · simp [IdentityContext.check_for_ip_switch, hc, hs, updateMap]
    | some s =>
      cases hrow : s.get_user_last_ip event.user with
      | none =>
        refine ⟨?_, ?_, ?_, ?_⟩
        · intro _
          simp [IdentityContext.check_for_ip_switch, hc, hs, hrow]
        · intro h
          simp [IdentityContext.priorIp, hc, hs, hrow] at h
        · intro ip h
          simp [IdentityContext.priorIp, hc, hs, hrow] at h
        · simp [IdentityContext.check_for_ip_switch, hc, hs, hrow, updateMap]
      | some row =>
        refine ⟨?_, ?_, ?_, ?_⟩
        · intro h
          simp [IdentityContext.priorIp, hc, hs, hrow] at h
        · intro h
          simp only [IdentityContext.priorIp, hc, hs, hrow] at h
          replace h : row.1 = event.ip_address := by simpa using h
          simp [IdentityContext.check_for_ip_switch, hc, hs, hrow, h]
        · intro ip h hne
          simp only [IdentityContext.priorIp, hc, hs, hrow] at h
          replace h : row.1 = ip := by simpa using h
          subst h
          simp [IdentityContext.check_for_ip_switch, hc, hs, hrow, hne]
        · simp [IdentityContext.check_for_ip_switch, hc, hs, hrow, updateMap]

/-- Context of the C4 witness: alice is cached at 1.1.1.1. -/
def c4Ctx : IdentityContext :=
  { last_known_ip := updateMap (fun _ => none) "alice" "1.1.1.1"
    store := none }

/-- C4 witness: at a concrete switching event the rule emits the severity 8
report carrying the prior and current addresses, and the index afterwards
points at the new address. -/
theorem c4_ip_switch_contract_witness :
    ((c4Ctx.check_for_ip_switch (mkEvent "alice" 1700000005 "2.2.2.2")).1 =
      some { severity := 8
             rule_name := "Sudden IP Switch"
             user := "alice"
             detected_ip := "2.2.2.2"
             trusted_ip := "1.1.1.1"
             timestamp := 1700000005
             description :=
               ipSwitchDescription "alice" "1.1.1.1" "2.2.2.2" }) ∧
    ((c4Ctx.check_for_ip_switch
        (mkEvent "alice" 1700000005 "2.2.2.2")).2.last_known_ip "alice"
      = some "2.2.2.2") :=
  ⟨(c4_ip_switch_contract c4Ctx
      (mkEvent "alice" 1700000005 "2.2.2.2")).2.2.1 "1.1.1.1" (by decide)
      (by decide),
   (c4_ip_switch_contract c4Ctx (mkEvent "alice" 1700000005 "2.2.2.2")).2.2.2⟩

/-! ## C5, C6: geo-velocity edge cases -/

/-- Haversine distance from a point to itself vanishes: both angle deltas
are zero, so a = 0, and 2 * arcsin (sqrt 0) = 0. -/
theorem haversine_distance_self (loc : GeoLocation) :
    haversine_distance loc loc = 0 := by
  simp [haversine_distance]

/-- C5: with a prior location on record and a time delta strictly below 3.6
seconds — negative deltas included — check_impossible_travel returns the
"Simultaneous Multi-Location Login" report of severity 10.  The branch takes
the Rust early return before any quotient is formed, so no division by the
(possibly zero or negative) time delta occurs. -/
theorem c5_simultaneous_branch (tr : GeoVelocityTracker) (event : LogEvent)
    (current_location : GeoLocation) (last_timestamp : Int)
    (last_location : GeoLocation)
    (hprior : tr.user_locations event.user
      = some (last_timestamp, last_location))
    (hdt : ((event.timestamp - last_timestamp : Int) : ℚ) < 36 / 10) :
    ((tr.check_impossible_travel event current_location).1.map
        AnomalyReport.rule_name = some "Simultaneous Multi-Location Login") ∧
    ((tr.check_impossible_travel event current_location).1.map
        AnomalyReport.severity = some 10) := by
  have hg : ((event.timestamp - last_timestamp : Int) : ℚ) / 3600
      < 1 / 1000 := by
    rw [div_lt_iff₀ (by norm_num : (0 : ℚ) < 3600)]
    calc ((event.timestamp - last_timestamp : Int) : ℚ)
        < 36 / 10 := hdt
      _ = 1 / 1000 * 3600 := by norm_num
  have hout : (tr.check_impossible_travel event current_location).1
      = some (create_simultaneous_login_report event last_location
          current_location) := by
    simp only [GeoVelocityTracker.check_impossible_travel, hprior]
    rw [if_pos hg]
  rw [hout]
  exact ⟨rfl, rfl⟩

/-- Prior state of the C5 witness: user c was last seen at timestamp
1700000005, after the witness event timestamp (negative delta). -/
def c5Tracker : GeoVelocityTracker :=
  { user_locations :=
      updateMap (fun _ => none) "c"
        (1700000005, { latitude := 515074 / 10000, longitude := -1278 / 10000 })
    max_velocity_kmh := 900 }

/-- C5 witness: concrete out-of-order event (delta = -5 seconds) producing
the simultaneous login report. -/
theorem c5_simultaneous_branch_witness :
    (((c5Tracker.check_impossible_travel (mkEvent "c" 1700000000 "4.4.4.4")
        { latitude := -338688 / 10000, longitude := 1512093 / 10000 }).1.map
        AnomalyReport.rule_name = some "Simultaneous Multi-Location Login")) ∧
    (((c5Tracker.check_impossible_travel (mkEvent "c" 1700000000 "4.4.4.4")
        { latitude := -338688 / 10000, longitude := 1512093 / 10000 }).1.map
        AnomalyReport.severity = some 10)) :=
  c5_simultaneous_branch c5Tracker (mkEvent "c" 1700000000 "4.4.4.4")
    { latitude := -338688 / 10000, longitude := 1512093 / 10000 } 1700000005
    { latitude := 515074 / 10000, longitude := -1278 / 10000 } rfl
    (by norm_num [mkEvent])

/-- Prior state of the C6 theorems: user dave last seen at timestamp
1700000000 at a fixed location. -/
def c6Tracker : GeoVelocityTracker :=
  { user_locations :=
      updateMap (fun _ => none) "dave"
        (1700000000, { latitude := 407128 / 10000, longitude := -740060 / 10000 })
    max_velocity_kmh := 900 }

/-- C6 counterexample: the claim says identical consecutive locations emit
no report regardless of the time delta; at delta = 1 second the code takes
the simultaneous branch before any distance is computed and does emit a
report. -/
theorem c6_same_location_counterexample :
    ((c6Tracker.check_impossible_travel (mkEvent "dave" 1700000001 "1.1.1.1")
        { latitude := 407128 / 10000,
          longitude := -740060 / 10000 }).1).isSome = true := by
  have hg : ((1700000001 - 1700000000 : Int) : ℚ) / 3600 < 1 / 1000 := by
    norm_num
  simp only [GeoVelocityTracker.check_impossible_travel, c6Tracker,
    updateMap, mkEvent, eq_self_iff_true, if_true]
  rw [if_pos hg]
  rfl

/-- C6 (amended): identical consecutive locations emit no report whenever
the time delta is at least 3.6 seconds (outside the simultaneous branch) and
the configured maximum velocity is nonnegative; below 3.6 seconds the
simultaneous branch fires regardless of the distance. -/
theorem c6_same_location_no_report (tr : GeoVelocityTracker)
    (event : LogEvent) (loc : GeoLocation) (last_timestamp : Int)
    (hprior : tr.user_locations event.user = some (last_timestamp, loc))
    (hdt : (1 : ℚ) / 1000
      ≤ ((event.timestamp - last_timestamp : Int) : ℚ) / 3600)
    (hmax : 0 ≤ tr.max_velocity_kmh) :
    (tr.check_impossible_travel event loc).1 = none := by
  have hg := not_lt.mpr hdt
  have hv : ¬ ((tr.max_velocity_kmh : ℝ) < haversine_distance loc loc /
      ((((event.timestamp - last_timestamp : Int) : ℚ) / 3600 : ℚ) : ℝ)) := by
    rw [haversine_distance_self, zero_div]
    exact not_lt.mpr (by exact_mod_cast hmax)
  simp only [GeoVelocityTracker.check_impossible_travel, hprior]
  rw [if_neg hg]
  simp only []
  rw [if_neg hv]

/-- C6 witness: one hour after the prior observation at the same
coordinates, the rule emits nothing. -/
theorem c6_same_location_no_report_witness :
    (c6Tracker.check_impossible_travel (mkEvent "dave" 1700003600 "1.1.1.1")
      { latitude := 407128 / 10000, longitude := -740060 / 10000 }).1
      = none :=
  c6_same_location_no_report c6Tracker
    (mkEvent "dave" 1700003600 "1.1.1.1")
    { latitude := 407128 / 10000, longitude := -740060 / 10000 } 1700000000
    rfl (by norm_num [mkEvent]) (by norm_num [c6Tracker])

/-! ## C8: severity band totality -/

/-- The rate-limit severity table only yields 7, 8, 9 or 10. -/
theorem rate_severity_band (a t : Nat) :
    1 ≤ LoginRateLimiter.calculate_severity a t ∧
    LoginRateLimiter.calculate_severity a t ≤ 10 := by
  unfold LoginRateLimiter.calculate_severity
  by_cases h1 : (5 : ℚ) < (a : ℚ) / (t : ℚ)
  · simp [h1]
  · by_cases h2 : (3 : ℚ) < (a : ℚ) / (t : ℚ)
    · simp [h1, h2]
    · by_cases h3 : (2 : ℚ) < (a : ℚ) / (t : ℚ)
      · simp [h1, h2, h3]
      · simp [h1, h2, h3]

/-- The geo-velocity severity table only yields 7, 8, 9 or 10. -/
theorem geo_severity_band (v m : ℝ) :
    1 ≤ GeoVelocityTracker.calculate_severity v m ∧
    GeoVelocityTracker.calculate_severity v m ≤ 10 := by
  unfold GeoVelocityTracker.calculate_severity
  by_cases h1 : (10 : ℝ) < v / m
  · simp [h1]
  · by_cases h2 : (5 : ℝ) < v / m
    · simp [h1, h2]
    · by_cases h3 : (2 : ℝ) < v / m
      · simp [h1, h2, h3]
      · simp [h1, h2, h3]

/-- C8: severity band totality.  Every report emitted by the IP-switch rule,
the geo-velocity rule, or the rate-limit rule has severity between 1 and 10:
the IP-switch report carries the constant 8, the simultaneous login report
the constant 10, and the remaining reports values of the two severity
tables, which only produce 7, 8, 9 or 10. -/
theorem c8_severity_bands :
    (∀ (ctx : IdentityContext) (event : LogEvent) (r : AnomalyReport),
        (ctx.check_for_ip_switch event).1 = some r →
        1 ≤ r.severity ∧ r.severity ≤ 10) ∧
    (∀ (tr : GeoVelocityTracker) (event : LogEvent) (loc : GeoLocation)
        (r : AnomalyReport),
        (tr.check_impossible_travel event loc).1 = some r →
        1 ≤ r.severity ∧ r.severity ≤ 10) ∧
    (∀ (rl : LoginRateLimiter) (event : LogEvent) (r : AnomalyReport),
        r ∈ (rl.check_rate_limit event).1 →
        1 ≤ r.severity ∧ r.severity ≤ 10) := by
  refine ⟨?_, ?_, ?_⟩
  · intro ctx event r h
    simp only [IdentityContext.check_for_ip_switch] at h
    cases hc : ctx.last_known_ip event.user with
    | some ip0 =>
      simp only [hc] at h
      split at h
      · exact absurd h (by simp)
      · cases h
        exact ⟨by norm_num, by norm_num⟩
    | none =>
      cases hs : ctx.store with
      | none =>
        simp [hc, hs] at h
      | some s =>
        cases hrow : s.get_user_last_ip event.user with
        | none => simp [hc, hs, hrow] at h
        | some row =>
          simp only [hc, hs, hrow] at h
          split at h
          · exact absurd h (by simp)
          · cases h
            exact ⟨by norm_num, by norm_num⟩
  · intro tr event loc r h
    simp only [GeoVelocityTracker.check_impossible_travel] at h
    cases hl : tr.user_locations event.user with
    | none => simp [hl] at h
    | some p =>
      obtain ⟨lt, ll⟩ := p
      simp only [hl] at h
      split at h
      · simp only [create_simultaneous_login_report] at h
        cases h
        exact ⟨by norm_num, by norm_num⟩
      · split at h
        · cases h
          exact geo_severity_band _ _
        · exact absurd h (by simp)
  · intro rl event r h
    simp only [LoginRateLimiter.check_rate_limit, List.mem_append] at h
    rcases h with h | h
    · split at h
      · rw [List.mem_singleton] at h
        subst h
        exact rate_severity_band _ _
      · exact absurd h (by simp)
    · split at h
      · rw [List.mem_singleton] at h
        subst h
        exact rate_severity_band _ _
      · exact absurd h (by simp)

/-- Context of the C8 witness: bob cached at 3.3.3.3. -/
def c8Ctx : IdentityContext :=
  { last_known_ip := updateMap (fun _ => none) "bob" "3.3.3.3"
    store := none }

/-- Report emitted at the C8 witness input. -/
def c8Report : AnomalyReport :=
  { severity := 8
    rule_name := "Sudden IP Switch"
    user := "bob"
    detected_ip := "4.4.4.4"
    trusted_ip := "3.3.3.3"
    timestamp := 1700000009
    description := ipSwitchDescription "bob" "3.3.3.3" "4.4.4.4" }

/-- C8 witness: the report emitted at a concrete switching event has
severity within the band. -/
theorem c8_severity_bands_witness :
    1 ≤ c8Report.severity ∧ c8Report.severity ≤ 10 :=
  c8_severity_bands.1 c8Ctx (mkEvent "bob" 1700000009 "4.4.4.4") c8Report
    (by decide)

/-! ## C9: JSON round trip -/

/-- C9: encoding an AnomalyReport to JSON and decoding the result yields an
equal record.  The u8 and i64 range conditions are the invariants of the
Rust field types (severity fits u8, timestamp fits i64), stated here as
hypotheses because the model widens those fields to Nat and Int. -/
theorem c9_json_roundtrip (r : AnomalyReport) (hs : r.severity ≤ 255)
    (hlo : -(2 ^ 63) ≤ r.timestamp) (hhi : r.timestamp < 2 ^ 63) :
    decodeReport (encodeReport r) = some r := by
  have h0 : (0 : Int) ≤ (r.severity : Int) := Int.ofNat_nonneg _
  have h255 : (r.severity : Int) ≤ 255 := by exact_mod_cast hs
  norm_num at hlo hhi
  simp [encodeReport, decodeReport, jsonLookup, Json.asU8, Json.asStr,
    Json.asI64, h0, h255, hlo, hhi]

/-- Concrete report of the C9 witness. -/
def c9Report : AnomalyReport :=
  { severity := 10
    rule_name := "Impossible Travel Velocity"
    user := "u"
    detected_ip := "1.2.3.4"
    trusted_ip := ""
    timestamp := 1700000000
    description := "d" }

/-- C9 witness: round trip of a concrete report. -/
theorem c9_json_roundtrip_witness :
    decodeReport (encodeReport c9Report) = some c9Report :=
  c9_json_roundtrip c9Report (by decide) (by decide) (by decide)

/-! ## C10: per-identity frame property -/

/-- Helper: adding a login attempt for another user leaves a user's
store-backed attempt count unchanged. -/
theorem add_attempt_other_user (s : StoreState) (u0 ip : String) (ts : Int)
    (u : String) (hu : u ≠ u0) (ws : Int) :
    (s.add_login_attempt u0 ip ts).get_user_attempt_count u ws
      = s.get_user_attempt_count u ws := by
  simp only [StoreState.add_login_attempt, StoreState.get_user_attempt_count,
    StoreState.get_user_attempts_in_window, List.filter_append]
  have hne : u0 ≠ u := fun h => hu h.symm
  simp [List.filter, hne]

/-- Helper: adding a login attempt from another address leaves an address's
store-backed attempt count unchanged. -/
theorem add_attempt_other_ip (s : StoreState) (u0 ip : String) (ts : Int)
    (a : String) (ha : a ≠ ip) (ws : Int) :
    (s.add_login_attempt u0 ip ts).get_ip_attempt_count a ws
      = s.get_ip_attempt_count a ws := by
  simp only [StoreState.add_login_attempt, StoreState.get_ip_attempt_count,
    StoreState.get_ip_attempts_in_window, List.filter_append]
  have hne : ip ≠ a := fun h => ha h.symm
  simp [List.filter, hne]

/-- C10: per-identity frame property.  Processing one event through the
three rules (process_event order) mutates only state keyed by the event's
user and source address: for any other user u and other address a, the
cached last-known IP of u, the stored last-known IP row of u, the last
location of u, the in-memory attempt windows of u and a, and the
store-backed attempt counts of u and a are unchanged. -/
theorem c10_per_identity_frame (ctx : IdentityContext)
    (tr : GeoVelocityTracker) (rl : LoginRateLimiter) (event : LogEvent)
    (location : Option GeoLocation) (u a : String)
    (hu : u ≠ event.user) (ha : a ≠ event.ip_address) :
    ((processEvent ctx tr rl event location).2.1.last_known_ip u
      = ctx.last_known_ip u) ∧
    ((processEvent ctx tr rl event location).2.1.store.map
        (fun s => s.user_last_ip u)
      = ctx.store.map (fun s => s.user_last_ip u)) ∧
    ((processEvent ctx tr rl event location).2.2.1.user_locations u
      = tr.user_locations u) ∧
    ((processEvent ctx tr rl event location).2.2.2.per_user_attempts u
      = rl.per_user_attempts u) ∧
    ((processEvent ctx tr rl event location).2.2.2.per_ip_attempts a
      = rl.per_ip_attempts a) ∧
    (∀ ws, (processEvent ctx tr rl event location).2.2.2.store.map
        (fun s => s.get_user_attempt_count u ws)
      = rl.store.map (fun s => s.get_user_attempt_count u ws)) ∧
    (∀ ws, (processEvent ctx tr rl event location).2.2.2.store.map
        (fun s => s.get_ip_attempt_count a ws)
      = rl.store.map (fun s => s.get_ip_attempt_count a ws)) := by
  refine ⟨?_, ?_, ?_, ?_, ?_, ?_, ?_⟩
  · simp only [processEvent, IdentityContext.check_for_ip_switch]
    cases hc : ctx.last_known_ip event.user with
    | some ip0 => simp [hc, updateMap, hu]
    | none =>
      cases hs : ctx.store with
      | none => simp [hc, hs, updateMap, hu]
      | some s =>
        cases hrow : s.get_user_last_ip event.user with
        | none => simp [hc, hs, hrow, updateMap, hu]
        | some row => simp [hc, hs, hrow, updateMap, hu]
  · simp only [processEvent, IdentityContext.check_for_ip_switch]
    cases hs : ctx.store with
    | none => simp [hs]
    | some s =>
      simp [hs, StoreState.set_user_last_ip, updateMap, hu]
  · simp only [processEvent]
    cases location with
    | none => rfl
    | some loc =>
      simp only [GeoVelocityTracker.check_impossible_travel]
      cases hl : tr.user_locations event.user with
      | none => simp [hl, GeoVelocityTracker.insertLoc, updateMap, hu]
      | some p =>
        obtain ⟨lt, ll⟩ := p
        simp only [hl]
        split
        · rfl
        · simp [GeoVelocityTracker.insertLoc, updateMap, hu]
  · simp [processEvent, LoginRateLimiter.check_rate_limit, updateMap, hu]
  · simp [processEvent, LoginRateLimiter.check_rate_limit, updateMap, ha]
  · intro ws
    cases hst : rl.store with
    | none => simp [processEvent, LoginRateLimiter.check_rate_limit, hst]
    | some s =>
      simp [processEvent, LoginRateLimiter.check_rate_limit, hst,
        add_attempt_other_user s event.user event.ip_address event.timestamp
          u hu ws]
  · intro ws
    cases hst : rl.store with
    | none => simp [processEvent, LoginRateLimiter.check_rate_limit, hst]
    | some s =>
      simp [processEvent, LoginRateLimiter.check_rate_limit, hst,
        add_attempt_other_ip s event.user event.ip_address event.timestamp
          a ha ws]

/-- C10 witness: a concrete event for alice does not disturb bob's cached
IP nor the windows of another address. -/
theorem c10_per_identity_frame_witness :
    ((processEvent c4Ctx (GeoVelocityTracker.with_max_velocity 900)
        (LoginRateLimiter.with_config 300 3 100)
        (mkEvent "alice" 1700000005 "2.2.2.2") none).2.1.last_known_ip "bob"
      = c4Ctx.last_known_ip "bob") ∧
    ((processEvent c4Ctx (GeoVelocityTracker.with_max_velocity 900)
        (LoginRateLimiter.with_config 300 3 100)
        (mkEvent "alice" 1700000005 "2.2.2.2") none).2.2.2.per_ip_attempts
        "9.9.9.9"
      = (LoginRateLimiter.with_config 300 3 100).per_ip_attempts "9.9.9.9") :=
  ⟨(c10_per_identity_frame c4Ctx (GeoVelocityTracker.with_max_velocity 900)
      (LoginRateLimiter.with_config 300 3 100)
      (mkEvent "alice" 1700000005 "2.2.2.2") none "bob" "9.9.9.9"
      (by decide) (by decide)).1,
   (c10_per_identity_frame c4Ctx (GeoVelocityTracker.with_max_velocity 900)
      (LoginRateLimiter.with_config 300 3 100)
      (mkEvent "alice" 1700000005 "2.2.2.2") none "bob" "9.9.9.9"
      (by decide) (by decide)).2.2.2.2.1⟩

/-! ## C3: persistence parity -/

/-- Cache-store coherence of the IP-switch state: the store is this
StoreState and every cached address has a matching store row. -/
def ipCoherent (ctx : IdentityContext) (s : StoreState) : Prop :=
  ctx.store = some s ∧
  ∀ u ip, ctx.last_known_ip u = some ip →
    ∃ ts, s.user_last_ip u = some (ip, ts)

/-- The IP-switch cache of any user other than the event's is untouched by
check_for_ip_switch. -/
theorem check_ip_cache_other (ctx : IdentityContext) (e : LogEvent)
    (u : String) (hu : u ≠ e.user) :
    (ctx.check_for_ip_switch e).2.last_known_ip u = ctx.last_known_ip u := by
  simp only [IdentityContext.check_for_ip_switch]
  cases hc : ctx.last_known_ip e.user with
  | some ip0 => simp [hc, updateMap, hu]
  | none =>
    cases hs : ctx.store with
    | none => simp [hc, hs, updateMap, hu]
    | some s =>
      cases hrow : s.get_user_last_ip e.user with
      | none => simp [hc, hs, hrow, updateMap, hu]
      | some row => simp [hc, hs, hrow, updateMap, hu]

/-- Coherence of the IP-switch state is preserved by one check, with the
store advanced by the upsert the check performs. -/
theorem ipCoherent_step (ctx : IdentityContext) (s : StoreState)
    (e : LogEvent) (h : ipCoherent ctx s) :
    ipCoherent (ctx.check_for_ip_switch e).2
      (s.set_user_last_ip e.user e.ip_address e.timestamp) := by
  obtain ⟨hst, hcoh⟩ := h
  constructor
  · simp [IdentityContext.check_for_ip_switch, hst]
  · intro u ip hip
    by_cases hu : u = e.user
    · subst hu
      have hc2 : (ctx.check_for_ip_switch e).2.last_known_ip e.user
          = some e.ip_address := by
        simp [IdentityContext.check_for_ip_switch, updateMap]
      rw [hc2] at hip
      cases hip
      exact ⟨e.timestamp, by simp [StoreState.set_user_last_ip, updateMap]⟩
    · rw [check_ip_cache_other ctx e u hu] at hip
      obtain ⟨ts, hrow⟩ := hcoh u ip hip
      exact ⟨ts, by simp [StoreState.set_user_last_ip, updateMap, hu, hrow]⟩

/-- A run of the IP-switch rule from a coherent state reaches a coherent
state. -/
theorem ipCoherent_run (evs : List LogEvent) :
    ∀ (ctx : IdentityContext) (s : StoreState), ipCoherent ctx s →
      ∃ s', ipCoherent (ctx.run evs) s' := by
  induction evs with
  | nil =>
    intro ctx s h
    exact ⟨s, h⟩
  | cons e rest ih =>
    intro ctx s h
    simp only [IdentityContext.run]
    exact ih _ _ (ipCoherent_step ctx s e h)

/-- On a coherent state, the IP-switch output of the next event equals the
output computed from an empty cache over the same store. -/
theorem ip_parity_of_coherent (ctx : IdentityContext) (s : StoreState)
    (h : ipCoherent ctx s) (e : LogEvent) :
    (ctx.check_for_ip_switch e).1
      = (IdentityContext.check_for_ip_switch
          { last_known_ip := fun _ => none, store := some s } e).1 := by
  obtain ⟨hst, hcoh⟩ := h
  cases hc : ctx.last_known_ip e.user with
  | none =>
    simp only [IdentityContext.check_for_ip_switch, hc, hst]
    cases hrow : s.get_user_last_ip e.user with
    | none => simp [hrow]
    | some row => simp [hrow]
  | some ip =>
    obtain ⟨ts, hrow⟩ := hcoh e.user ip hc
    simp [IdentityContext.check_for_ip_switch, hc, hst,
      StoreState.get_user_last_ip, hrow]

/-- Cache-store coherence of the modelled persistent geo-velocity state:
every cache entry equals the store's newest-by-timestamp row for that
user. -/
def geoCoherent (tr : GeoVelocityTrackerP) : Prop :=
  ∀ u v, tr.user_locations u = some v →
    tr.store.get_user_last_location u = some v

/-- The newest-by-timestamp fold either leaves its accumulator unchanged or
returns the data of a row of the list. -/
theorem locBest_foldl_cases
    (l : List (String × Int × GeoLocation × String)) :
    ∀ acc, (l.foldl locBest acc = acc) ∨
      ∃ r ∈ l, l.foldl locBest acc = some (r.2.1, r.2.2.1) := by
  induction l with
  | nil =>
    intro acc
    exact Or.inl rfl
  | cons r l ih =>
    intro acc
    simp only [List.foldl_cons]
    rcases ih (locBest acc r) with h | ⟨r1, hr1, h⟩
    · rw [h]
      cases acc with
      | none => exact Or.inr ⟨r, List.mem_cons_self r l, rfl⟩
      | some p =>
        obtain ⟨t, l0⟩ := p
        by_cases ht : t < r.2.1
        · exact Or.inr ⟨r, List.mem_cons_self r l, by simp [locBest, ht]⟩
        · exact Or.inl (by simp [locBest, ht])
    · exact Or.inr ⟨r1, List.mem_cons_of_mem r hr1, h⟩

/-- A successful newest-by-timestamp read returns the timestamp of some row
of its user. -/
theorem get_last_location_ts_mem (s : StoreState) (u : String) (t0 : Int)
    (l0 : GeoLocation) (h : s.get_user_last_location u = some (t0, l0)) :
    ∃ r ∈ s.user_locations, r.1 = u ∧ r.2.1 = t0 := by
  unfold StoreState.get_user_last_location at h
  rcases locBest_foldl_cases (s.user_locations.filter (fun r => r.1 = u))
      none with h1 | ⟨r, hr, h1⟩
  · rw [h1] at h
    exact Option.noConfusion h
  · rw [h1] at h
    obtain ⟨hmem, hp⟩ := List.mem_filter.mp hr
    refine ⟨r, hmem, by simpa using hp, ?_⟩
    injection h with h2
    exact congrArg Prod.fst h2

/-- Appending a row for a user whose timestamp strictly exceeds every stored
row of that user makes it the newest-by-timestamp row. -/
theorem get_last_location_append_self (s : StoreState) (u : String)
    (t : Int) (loc : GeoLocation) (ip : String)
    (hf : ∀ r ∈ s.user_locations, r.1 = u → r.2.1 < t) :
    (s.add_user_location u t loc ip).get_user_last_location u
      = some (t, loc) := by
  unfold StoreState.add_user_location StoreState.get_user_last_location
  rw [List.filter_append]
  have hx : List.filter (fun r => decide (r.1 = u)) [(u, t, loc, ip)]
      = [(u, t, loc, ip)] := by simp
  rw [hx, List.foldl_append]
  simp only [List.foldl_cons, List.foldl_nil]
  cases hacc : (s.user_locations.filter (fun r => r.1 = u)).foldl locBest
      none with
  | none => simp [hacc, locBest]
  | some p =>
    obtain ⟨t0, l0⟩ := p
    obtain ⟨r, hr, hu1, hts⟩ := get_last_location_ts_mem s u t0 l0
      (by unfold StoreState.get_user_last_location; exact hacc)
    have ht : t0 < t := hts ▸ hf r hr hu1
    simp [hacc, locBest, ht]

/-- Appending a row of another user leaves a user's newest-by-timestamp
read unchanged. -/
theorem get_last_location_append_other (s : StoreState) (u0 : String)
    (t : Int) (loc : GeoLocation) (ip : String) (u : String)
    (hu : u ≠ u0) :
    (s.add_user_location u0 t loc ip).get_user_last_location u
      = s.get_user_last_location u := by
  unfold StoreState.add_user_location StoreState.get_user_last_location
  rw [List.filter_append]
  have hne : u0 ≠ u := fun h => hu h.symm
  have hx : List.filter (fun r => decide (r.1 = u)) [(u0, t, loc, ip)]
      = [] := by simp [hne]
  rw [hx, List.append_nil]

/-- Per-user timestamp freshness of a located event sequence against the
evolving location table: each located event's timestamp strictly exceeds
the timestamp of every row already stored for its user when it is
processed (skipped events change nothing).  This is the out-of-order-free
condition under which restart parity of the geo rule holds. -/
def geoFresh : StoreState → List (LogEvent × Option GeoLocation) → Prop
  | _, [] => True
  | s, (_, none) :: rest => geoFresh s rest
  | s, (e, some loc) :: rest =>
      (∀ r ∈ s.user_locations, r.1 = e.user → r.2.1 < e.timestamp) ∧
      geoFresh (s.add_user_location e.user e.timestamp loc e.ip_address) rest

/-- Coherence of the persistent geo-velocity state is preserved by one
check whose event timestamp is fresh for its user. -/
theorem geoCoherent_step (tr : GeoVelocityTrackerP) (e : LogEvent)
    (loc : GeoLocation) (h : geoCoherent tr)
    (hf : ∀ r ∈ tr.store.user_locations, r.1 = e.user →
      r.2.1 < e.timestamp) :
    geoCoherent (tr.check_impossible_travel e loc).2 := by
  intro u v hv
  simp only [GeoVelocityTrackerP.check_impossible_travel] at hv ⊢
  by_cases hu : u = e.user
  · subst hu
    simp only [updateMap, if_pos rfl] at hv
    cases hv
    exact get_last_location_append_self tr.store e.user e.timestamp loc
      e.ip_address hf
  · simp only [updateMap, if_neg hu] at hv
    rw [get_last_location_append_other tr.store e.user e.timestamp loc
      e.ip_address u hu]
    exact h u v hv

/-- A run of the persistent geo-velocity rule over a fresh event sequence
preserves coherence and the configured maximum velocity. -/
theorem geoP_run_facts (evs : List (LogEvent × Option GeoLocation)) :
    ∀ tr : GeoVelocityTrackerP, geoCoherent tr → geoFresh tr.store evs →
      geoCoherent (GeoVelocityTrackerP.run tr evs) ∧
      (GeoVelocityTrackerP.run tr evs).max_velocity_kmh
        = tr.max_velocity_kmh := by
  induction evs with
  | nil =>
    intro tr h _
    exact ⟨h, rfl⟩
  | cons p rest ih =>
    intro tr h hfresh
    obtain ⟨e, lo⟩ := p
    cases lo with
    | none =>
      simp only [GeoVelocityTrackerP.run]
      exact ih tr h hfresh
    | some loc =>
      simp only [GeoVelocityTrackerP.run]
      obtain ⟨hf1, hf2⟩ := hfresh
      have hst : (tr.check_impossible_travel e loc).2.store
          = tr.store.add_user_location e.user e.timestamp loc
              e.ip_address := by
        simp [GeoVelocityTrackerP.check_impossible_travel]
      have hmax : (tr.check_impossible_travel e loc).2.max_velocity_kmh
          = tr.max_velocity_kmh := by
        simp [GeoVelocityTrackerP.check_impossible_travel]
      have hf2' : geoFresh (tr.check_impossible_travel e loc).2.store rest := by
        rw [hst]
        exact hf2
      obtain ⟨a, b⟩ := ih _ (geoCoherent_step tr e loc h hf1) hf2'
      exact ⟨a, by rw [b, hmax]⟩

/-- On a coherent persistent geo-velocity state, the output of the next
located event equals the output computed from an empty cache over the same
store. -/
theorem geoP_parity_of_coherent (tr : GeoVelocityTrackerP)
    (h : geoCoherent tr) (e : LogEvent) (loc : GeoLocation) :
    (tr.check_impossible_travel e loc).1
      = (GeoVelocityTrackerP.check_impossible_travel
          { user_locations := fun _ => none
            max_velocity_kmh := tr.max_velocity_kmh
            store := tr.store } e loc).1 := by
  simp only [GeoVelocityTrackerP.check_impossible_travel]
  cases hc : tr.user_locations e.user with
  | none => simp [hc]
  | some p => simp [hc, h e.user p hc]

/-- check_rate_limit leaves the configuration unchanged and advances the
store by exactly the persisted attempt. -/
theorem check_rate_config (rl : LoginRateLimiter) (e : LogEvent) :
    (rl.check_rate_limit e).2.window_seconds = rl.window_seconds ∧
    (rl.check_rate_limit e).2.max_user_attempts = rl.max_user_attempts ∧
    (rl.check_rate_limit e).2.max_ip_attempts = rl.max_ip_attempts ∧
    (rl.check_rate_limit e).2.store = rl.store.map
      (fun s => s.add_login_attempt e.user e.ip_address e.timestamp) := by
  refine ⟨?_, ?_, ?_, ?_⟩ <;> simp [LoginRateLimiter.check_rate_limit]

/-- A run of the rate limiter preserves the configuration and keeps the
store present. -/
theorem rate_run_facts (evs : List LogEvent) :
    ∀ rl : LoginRateLimiter,
      ((rl.run evs).2.window_seconds = rl.window_seconds) ∧
      ((rl.run evs).2.max_user_attempts = rl.max_user_attempts) ∧
      ((rl.run evs).2.max_ip_attempts = rl.max_ip_attempts) ∧
      (∀ s, rl.store = some s → ∃ s', (rl.run evs).2.store = some s') := by
  induction evs with
  | nil =>
    intro rl
    exact ⟨rfl, rfl, rfl, fun s h => ⟨s, h⟩⟩
  | cons e rest ih =>
    intro rl
    simp only [LoginRateLimiter.run]
    obtain ⟨hW, hU, hI, hS⟩ := check_rate_config rl e
    obtain ⟨iW, iU, iI, iS⟩ := ih (rl.check_rate_limit e).2
    refine ⟨by rw [iW, hW], by rw [iU, hU], by rw [iI, hI], ?_⟩
    intro s h
    exact iS (s.add_login_attempt e.user e.ip_address e.timestamp)
      (by rw [hS, h]; rfl)

/-- Two rate limiters sharing one present store and one configuration
produce the same reports for the next event, whatever their in-memory
windows hold: with a store, the counts that drive the reports are read from
the store alone. -/
theorem rate_parity_store (rl rl' : LoginRateLimiter) (s : StoreState)
    (hs : rl.store = some s) (hs' : rl'.store = some s)
    (hW : rl'.window_seconds = rl.window_seconds)
    (hU : rl'.max_user_attempts = rl.max_user_attempts)
    (hI : rl'.max_ip_attempts = rl.max_ip_attempts) (e : LogEvent) :
    (rl.check_rate_limit e).1 = (rl'.check_rate_limit e).1 := by
  simp [LoginRateLimiter.check_rate_limit,
    LoginRateLimiter.get_user_attempt_count_internal,
    LoginRateLimiter.get_ip_attempt_count_internal, hs, hs', hW, hU, hI]

/-- C3 (amended): persistence parity.  The IP-switch and rate-limit rules
reproduce, after a restart with fresh in-memory state over the same store,
the same output for the next event as the uninterrupted run, for every
event sequence: the IP-switch cache is coherent with the store it writes
through to, and with a store present the rate-limit counts are read from
the store alone.  The geo-velocity rule (persistent variant modelled from
the spec, since GeoVelocityTracker::with_persistence is absent from src)
reproduces the same output provided the located events' timestamps are
per-user fresh (strictly above every location row already stored for that
user): its cache holds the last processed observation while the store read
returns the newest row by timestamp, and these agree exactly when
timestamps do not go backwards. -/
theorem c3_persistence_parity :
    (∀ (s0 : StoreState) (evs : List LogEvent) (event : LogEvent),
      (((IdentityContext.with_persistence s0).run evs).check_for_ip_switch
          event).1
        = (IdentityContext.check_for_ip_switch
            { last_known_ip := fun _ => none
              store := ((IdentityContext.with_persistence s0).run evs).store }
            event).1) ∧
    (∀ (s0 : StoreState) (maxv : ℚ)
        (evs : List (LogEvent × Option GeoLocation)) (event : LogEvent)
        (loc : GeoLocation), geoFresh s0 evs →
      ((GeoVelocityTrackerP.run
            { user_locations := fun _ => none
              max_velocity_kmh := maxv
              store := s0 } evs).check_impossible_travel event loc).1
        = (GeoVelocityTrackerP.check_impossible_travel
            { user_locations := fun _ => none
              max_velocity_kmh := maxv
              store := (GeoVelocityTrackerP.run
                { user_locations := fun _ => none
                  max_velocity_kmh := maxv
                  store := s0 } evs).store } event loc).1) ∧
    (∀ (s0 : StoreState) (W : Int) (U I : Nat) (evs : List LogEvent)
        (event : LogEvent),
      ((((LoginRateLimiter.with_persistence W U I s0).run
            evs).2).check_rate_limit event).1
        = (LoginRateLimiter.check_rate_limit
            { per_user_attempts := fun _ => none
              per_ip_attempts := fun _ => none
              window_seconds := W
              max_user_attempts := U
              max_ip_attempts := I
              store := ((LoginRateLimiter.with_persistence W U I s0).run
                evs).2.store } event).1) := by
  refine ⟨?_, ?_, ?_⟩
  · intro s0 evs event
    have hinit : ipCoherent (IdentityContext.with_persistence s0) s0 :=
      ⟨rfl, fun u ip h => Option.noConfusion h⟩
    obtain ⟨s', hcoh⟩ :=
      ipCoherent_run evs (IdentityContext.with_persistence s0) s0 hinit
    rw [hcoh.1]
    exact ip_parity_of_coherent _ s' hcoh event
  · intro s0 maxv evs event loc hfresh
    have hinit : geoCoherent
        { user_locations := fun _ => none
          max_velocity_kmh := maxv
          store := s0 } :=
      fun u v h => Option.noConfusion h
    obtain ⟨hcoh, hmax⟩ := geoP_run_facts evs _ hinit hfresh
    have := geoP_parity_of_coherent _ hcoh event loc
    rw [this, hmax]
  · intro s0 W U I evs event
    obtain ⟨hW, hU, hI, hS⟩ :=
      rate_run_facts evs (LoginRateLimiter.with_persistence W U I s0)
    obtain ⟨s', hs'⟩ := hS s0 rfl
    refine rate_parity_store _ _ s' hs' ?_ ?_ ?_ ?_ event
    · rw [hs']
    · rw [hW]
      rfl
    · rw [hU]
      rfl
    · rw [hI]
      rfl

/-- Empty store of the C3 counterexample and witness. -/
def c3Store0 : StoreState :=
  { user_last_ip := fun _ => none
    attempts := []
    user_locations := [] }

/-- Fixed location used by the C3 counterexample and witness (its
coordinates are irrelevant: the diverging branch is decided on timestamps
alone). -/
def c3Loc : GeoLocation := { latitude := 10, longitude := 20 }

/-- Out-of-order located event sequence of the C3 counterexample: user g
logs in at t = 100 and then at t = 50. -/
def c3Events : List (LogEvent × Option GeoLocation) :=
  [(mkEvent "g" 100 "1.1.1.1", some c3Loc),
   (mkEvent "g" 50 "1.1.1.1", some c3Loc)]

/-- Uninterrupted persistent geo-velocity state after the C3 counterexample
events: the cache holds the last processed observation (t = 50) while the
store's newest row by timestamp is the t = 100 one. -/
noncomputable def c3Final : GeoVelocityTrackerP :=
  GeoVelocityTrackerP.run
    { user_locations := fun _ => none
      max_velocity_kmh := 900
      store := c3Store0 } c3Events

/-- Next event of the C3 counterexample: 2 seconds after the newest stored
row but 52 seconds after the last processed observation. -/
def c3Next : LogEvent := mkEvent "g" 102 "1.1.1.1"

/-- C3 counterexample: after the out-of-order sequence, the uninterrupted
run emits nothing for the next event (delta 52 s against the cached
observation, distance 0), while a restart with fresh in-memory state over
the same store reads the newest-by-timestamp row and takes the simultaneous
branch (delta 2 s), emitting a report — the claimed parity for all three
rules over any event sequence fails on the geo-velocity rule. -/
theorem c3_parity_counterexample :
    ((c3Final.check_impossible_travel c3Next c3Loc).1 = none) ∧
    ((GeoVelocityTrackerP.check_impossible_travel
        { user_locations := fun _ => none
          max_velocity_kmh := 900
          store := c3Final.store } c3Next c3Loc).1).isSome = true := by
  have hcache : c3Final.user_locations c3Next.user = some (50, c3Loc) := rfl
  have hstore : c3Final.store.get_user_last_location c3Next.user
      = some (100, c3Loc) := rfl
  have hmax : c3Final.max_velocity_kmh = 900 := rfl
  constructor
  · have hg : ¬ (((c3Next.timestamp - 50 : Int) : ℚ) / 3600 < 1 / 1000) := by
      norm_num [c3Next, mkEvent]
    have hv : ¬ ((c3Final.max_velocity_kmh : ℝ)
        < haversine_distance c3Loc c3Loc /
          ((((c3Next.timestamp - 50 : Int) : ℚ) / 3600 : ℚ) : ℝ)) := by
      rw [haversine_distance_self, zero_div, hmax]
      norm_num
    simp only [GeoVelocityTrackerP.check_impossible_travel, hcache,
      geoDecision]
    rw [if_neg hg, if_neg hv]
  · have hg2 : ((c3Next.timestamp - 100 : Int) : ℚ) / 3600 < 1 / 1000 := by
      norm_num [c3Next, mkEvent]
    simp only [GeoVelocityTrackerP.check_impossible_travel, geoDecision,
      hstore]
    rw [if_pos hg2]
    rfl

/-- Fresh located sequence of the C3 witness: one event for user h at
t = 10 over the empty store. -/
def c3WitnessEvents : List (LogEvent × Option GeoLocation) :=
  [(mkEvent "h" 10 "2.2.2.2", some c3Loc)]

/-- C3 witness: geo parity instantiated at a concrete fresh sequence, the
freshness hypothesis discharged on the empty store. -/
theorem c3_persistence_parity_witness :
    ((GeoVelocityTrackerP.run
        { user_locations := fun _ => none
          max_velocity_kmh := 900
          store := c3Store0 } c3WitnessEvents).check_impossible_travel
        (mkEvent "h" 20 "2.2.2.2") c3Loc).1
      = (GeoVelocityTrackerP.check_impossible_travel
          { user_locations := fun _ => none
            max_velocity_kmh := 900
            store := (GeoVelocityTrackerP.run
              { user_locations := fun _ => none
                max_velocity_kmh := 900
                store := c3Store0 } c3WitnessEvents).store }
          (mkEvent "h" 20 "2.2.2.2") c3Loc).1 :=
  c3_persistence_parity.2.1 c3Store0 900 c3WitnessEvents
    (mkEvent "h" 20 "2.2.2.2") c3Loc
    (by exact ⟨fun r hr => absurd hr (by simp [c3Store0]), trivial⟩)

end Odin
